import Mathlib

/-!
Shallow embedding of `src/database.rs`, the link store of SparkleScannerBot.

The source is a per-user link store over SQLite.  Every operation reads the
`DATABASE_URL` environment variable, opens a connection, prepares one SQL
statement (or one per item for `delete_some_links`), binds `user_id` as its
decimal string (`user_id.to_string()`) plus the link text, and executes it.
Every failure point in the source is an `expect`/`unwrap` panic; no operation
returns an error value.

We model the contents of the backend relation as a list of rows, the environment
(variable, connection, statement outcomes) as an explicit `Env` record, and a
panic as the `PanicOr.panicked` outcome carrying the panic message.  The
resulting store state is threaded through every operation, including on a
panic, since the per-statement commits of SQLite survive the process.
-/

namespace Database

/-- Result of stepping a statement, `sqlite3::State` (a row is available, or
the statement is done). -/
inductive State where
  | Row
  | Done
deriving DecidableEq, Repr

/-- Modelled from the spec: the backend relation `links` (its schema is not in
the repository).  Per §6 it has two columns, `user_id` "stored as the integer
value passed in, represented numerically" (the operations bind the decimal
string of the `u64`, which the numeric column stores as that integer) and
`link` (text).  A row is one record of this relation. -/
structure Row where
  user_id : Nat
  link : String
deriving DecidableEq, Repr

/-- The backend store: the rows of the `links` relation, in backend order. -/
abbrev DB := List Row

/-- The `struct Links` from the source: `user_id: f64`, `link: String`.  The
`f64` field always holds a value that is a nonnegative integer (it is read
from the integer column, rounded to the nearest double), so we represent the
exact numeric value of the double as that natural number. -/
structure Links where
  user_id : Nat
  link : String
deriving DecidableEq, Repr

/-- Exponent of the gap between consecutive IEEE-754 doubles at magnitude `n`,
for `n` in the `u64` range (`n < 2 ^ 64`): doubles in `[2 ^ (52 + k), 2 ^ (53 + k))`
are spaced `2 ^ k` apart. -/
def f64ulpExp (n : Nat) : Nat :=
  if n < 2 ^ 53 then 0
  else if n < 2 ^ 54 then 1
  else if n < 2 ^ 55 then 2
  else if n < 2 ^ 56 then 3
  else if n < 2 ^ 57 then 4
  else if n < 2 ^ 58 then 5
  else if n < 2 ^ 59 then 6
  else if n < 2 ^ 60 then 7
  else if n < 2 ^ 61 then 8
  else if n < 2 ^ 62 then 9
  else if n < 2 ^ 63 then 10
  else 11

/-- The value obtained by rounding the integer `n` (in the `u64` range) to the
nearest IEEE-754 double, ties to even — the exact numeric value `db.read::<f64>`
yields for an integer column holding `n`. -/
def f64round (n : Nat) : Nat :=
  let e := f64ulpExp n
  let q := n / 2 ^ e
  let r := n % 2 ^ e
  if 2 * r < 2 ^ e then q * 2 ^ e
  else if 2 ^ e < 2 * r then (q + 1) * 2 ^ e
  else if q % 2 = 0 then q * 2 ^ e else (q + 1) * 2 ^ e

/-- Reading one row back (the loop body of `add_to_vec_from_database`):
column 0 via `db.read::<f64>(0)` — the integer rounded to the nearest double —
and column 1 via `db.read::<String>(1)`. -/
def rowToLinks (r : Row) : Links :=
  { user_id := f64round r.user_id, link := r.link }

/-- Function `add_to_vec_from_database`: steps the statement while rows remain, reading
column 0 as `f64` and column 1 as text and pushing a `Links` onto the vector. -/
def add_to_vec_from_database : List Row → List Links → List Links
  | [], vec => vec
  | r :: rows, vec => add_to_vec_from_database rows (vec ++ [rowToLinks r])

/-- The world outside the store, as each operation observes it: the
`DATABASE_URL` environment variable, whether `sqlite3::open` succeeds, and for
the `k`-th statement executed within one call, the backend error message if
the backend rejects it (`prepare`/`bind`/`next` failures are collapsed into
one per-statement outcome; each is an `unwrap` panic in the source). -/
structure Env where
  database_url : Option String
  open_ok : Bool
  stmt_err : Nat → Option String

/-- Outcome of a call: a returned value, or a panic with its message. -/
inductive PanicOr (α : Type) where
  | ok (a : α)
  | panicked (msg : String)
deriving DecidableEq, Repr

/-- The effect of a call: the store contents afterwards, and the outcome.  The
store survives a panic, so it is present in both cases. -/
structure OpResult (α : Type) where
  db : DB
  out : PanicOr α
deriving DecidableEq, Repr

/-- Function `add_link`: reads `DATABASE_URL` (panic if unset), opens the connection
(panic on failure), prepares `INSERT INTO links VALUES (?, ?)`, binds
`user_id.to_string()` at 1 and the link at 2, and steps the statement,
returning the resulting `State` (`Done` for an insert). -/
def add_link (env : Env) (user_id : Nat) (link : String) (db : DB) : OpResult State :=
  match env.database_url with
  | none => ⟨db, .panicked "DATABASE_URL is not set"⟩
  | some _ =>
    if env.open_ok then
      match env.stmt_err 0 with
      | some msg => ⟨db, .panicked msg⟩
      | none => ⟨db ++ [{ user_id := user_id, link := link }], .ok State.Done⟩
    else ⟨db, .panicked "Failed to connect to the database"⟩

/-- Function `get_all_links_from_user`: selects `* FROM links WHERE user_id = ?`
(binding `user_id.to_string()`), adding `AND link = ?` with the link bound at 2
when the filter is present, then drains the rows via
`add_to_vec_from_database` into a fresh vector. -/
def get_all_links_from_user (env : Env) (user_id : Nat) (link : Option String)
    (db : DB) : OpResult (List Links) :=
  match env.database_url with
  | none => ⟨db, .panicked "DATABASE_URL is not set"⟩
  | some _ =>
    if env.open_ok then
      match env.stmt_err 0 with
      | some msg => ⟨db, .panicked msg⟩
      | none =>
        let rows :=
          match link with
          | some l => db.filter (fun r => r.user_id == user_id && r.link == l)
          | none => db.filter (fun r => r.user_id == user_id)
        ⟨db, .ok (add_to_vec_from_database rows [])⟩
    else ⟨db, .panicked "Failed to connect to the database"⟩

/-- Function `get_all_links`: `SELECT * FROM links`, unfiltered, drained the same way. -/
def get_all_links (env : Env) (db : DB) : OpResult (List Links) :=
  match env.database_url with
  | none => ⟨db, .panicked "DATABASE_URL is not set"⟩
  | some _ =>
    if env.open_ok then
      match env.stmt_err 0 with
      | some msg => ⟨db, .panicked msg⟩
      | none => ⟨db, .ok (add_to_vec_from_database db [])⟩
    else ⟨db, .panicked "Failed to connect to the database"⟩

/-- Function `is_link_exists`: calls `get_all_links_from_user(user_id, Some(link))` and
returns whether the vector has more than zero items; a panic in the query
propagates. -/
def is_link_exists (env : Env) (user_id : Nat) (link : String) (db : DB) :
    OpResult Bool :=
  let q := get_all_links_from_user env user_id (some link) db
  ⟨q.db,
    match q.out with
    | .ok vec => .ok (decide (vec.length > 0))
    | .panicked msg => .panicked msg⟩

/-- Function `clear_all_links`: `DELETE FROM links WHERE user_id = ?`, binding
`user_id.to_string()` at 1, then steps the statement. -/
def clear_all_links (env : Env) (user_id : Nat) (db : DB) : OpResult State :=
  match env.database_url with
  | none => ⟨db, .panicked "DATABASE_URL is not set"⟩
  | some _ =>
    if env.open_ok then
      match env.stmt_err 0 with
      | some msg => ⟨db, .panicked msg⟩
      | none => ⟨db.filter (fun r => !(r.user_id == user_id)), .ok State.Done⟩
    else ⟨db, .panicked "Failed to connect to the database"⟩

/-- The loop body of `delete_some_links`: for each link, prepare
`DELETE FROM links WHERE user_id = ? AND link = ?`, bind `user_id.to_string()`
and the link, and step it (`unwrap` panics at the first failing item, leaving
the deletions already executed committed).  `k` counts the statements issued
so far in this call. -/
def delete_some_links_loop (env : Env) (user_id : Nat) :
    List String → Nat → DB → OpResult Unit
  | [], _, db => ⟨db, .ok ()⟩
  | l :: ls, k, db =>
    match env.stmt_err k with
    | some msg => ⟨db, .panicked msg⟩
    | none =>
      delete_some_links_loop env user_id ls (k + 1)
        (db.filter (fun r => !(r.user_id == user_id && r.link == l)))

/-- Function `delete_some_links`: reads `DATABASE_URL`, opens the connection, then runs
one independent `DELETE` statement per input link. -/
def delete_some_links (env : Env) (user_id : Nat) (links : List String)
    (db : DB) : OpResult Unit :=
  match env.database_url with
  | none => ⟨db, .panicked "DATABASE_URL is not set"⟩
  | some _ =>
    if env.open_ok then delete_some_links_loop env user_id links 0 db
    else ⟨db, .panicked "Failed to connect to the database"⟩

/-- A SQL statement as the source issues it: the SQL text and the list of
`(position, bound text)` pairs, in binding order. -/
structure BoundStmt where
  sql : String
  binds : List (Nat × String)
deriving DecidableEq, Repr

/-- The statement `add_link` issues (lines 29–33): positional values
`user_id.to_string()` at 1 and the link at 2. -/
def add_link_stmt (user_id : Nat) (link : String) : BoundStmt :=
  { sql := "INSERT INTO links VALUES (?, ?)"
    binds := [(1, toString user_id), (2, link)] }

/-- The statement `get_all_links_from_user` issues (lines 78–94): the filtered
or unfiltered select, with `user_id.to_string()` bound at 1 and, when present,
the link bound at 2. -/
def get_all_links_from_user_stmt (user_id : Nat) (link : Option String) : BoundStmt :=
  match link with
  | some l =>
    { sql := "SELECT * FROM links WHERE user_id = ? AND link = ?"
      binds := [(1, toString user_id), (2, l)] }
  | none =>
    { sql := "SELECT * FROM links WHERE user_id = ?"
      binds := [(1, toString user_id)] }

/-- The statement `clear_all_links` issues (lines 180–182). -/
def clear_all_links_stmt (user_id : Nat) : BoundStmt :=
  { sql := "DELETE FROM links WHERE user_id = ?"
    binds := [(1, toString user_id)] }

/-- The statements `delete_some_links` issues (lines 212–218): one per input
link, in order. -/
def delete_some_links_stmts (user_id : Nat) (links : List String) : List BoundStmt :=
  links.map (fun link =>
    { sql := "DELETE FROM links WHERE user_id = ? AND link = ?"
      binds := [(1, toString user_id), (2, link)] })

/-- An environment in which every call succeeds: the variable is set, the
connection opens, and the backend accepts every statement. -/
def envOK : Env :=
  { database_url := some "database.db", open_ok := true, stmt_err := fun _ => none }

/-- The store contents after executing the delete statements of
`delete_some_links` for the given links in order. -/
def deleteFold (user_id : Nat) (ls : List String) (db : DB) : DB :=
  ls.foldl (fun db l => db.filter (fun r => !(r.user_id == user_id && r.link == l))) db

/-! ### Helper lemmas -/

theorem add_to_vec_from_database_eq (rows : List Row) (vec : List Links) :
    add_to_vec_from_database rows vec = vec ++ rows.map rowToLinks := by
  induction rows generalizing vec with
  | nil => simp [add_to_vec_from_database]
  | cons r rows ih => simp [add_to_vec_from_database, ih]

theorem add_link_ok_inv (env : Env) (u : Nat) (l : String) (db : DB) (st : State)
    (h : (add_link env u l db).out = .ok st) :
    add_link env u l db = ⟨db ++ [{ user_id := u, link := l }], .ok State.Done⟩ := by
  obtain ⟨urlOpt, ok, serr⟩ := env
  cases urlOpt with
  | none => simp [add_link] at h
  | some url =>
    cases ok with
    | false => simp [add_link] at h
    | true =>
      cases hs : serr 0 with
      | none => simp [add_link, hs]
      | some msg => simp [add_link, hs] at h

theorem get_some_ok_inv (env : Env) (u : Nat) (l : String) (db : DB) (v : List Links)
    (h : (get_all_links_from_user env u (some l) db).out = .ok v) :
    v = (db.filter (fun r => r.user_id == u && r.link == l)).map rowToLinks := by
  obtain ⟨urlOpt, ok, serr⟩ := env
  cases urlOpt with
  | none => simp [get_all_links_from_user] at h
  | some url =>
    cases ok with
    | false => simp [get_all_links_from_user] at h
    | true =>
      cases hs : serr 0 with
      | none =>
        simp [get_all_links_from_user, hs, add_to_vec_from_database_eq] at h
        exact h.symm
      | some msg => simp [get_all_links_from_user, hs] at h

theorem get_none_ok_inv (env : Env) (u : Nat) (db : DB) (v : List Links)
    (h : (get_all_links_from_user env u none db).out = .ok v) :
    v = (db.filter (fun r => r.user_id == u)).map rowToLinks := by
  obtain ⟨urlOpt, ok, serr⟩ := env
  cases urlOpt with
  | none => simp [get_all_links_from_user] at h
  | some url =>
    cases ok with
    | false => simp [get_all_links_from_user] at h
    | true =>
      cases hs : serr 0 with
      | none =>
        simp [get_all_links_from_user, hs, add_to_vec_from_database_eq] at h
        exact h.symm
      | some msg => simp [get_all_links_from_user, hs] at h

theorem add_link_eq (env : Env) (u : Nat) (l : String) (db : DB) (url : String)
    (hurl : env.database_url = some url) (hopen : env.open_ok = true)
    (hstmt : env.stmt_err 0 = none) :
    add_link env u l db = ⟨db ++ [{ user_id := u, link := l }], .ok State.Done⟩ := by
  obtain ⟨urlOpt, ok, serr⟩ := env
  simp only at hurl hopen hstmt
  simp [add_link, hurl, hopen, hstmt]

theorem get_some_eq (env : Env) (u : Nat) (l : String) (db : DB) (url : String)
    (hurl : env.database_url = some url) (hopen : env.open_ok = true)
    (hstmt : env.stmt_err 0 = none) :
    get_all_links_from_user env u (some l) db =
      ⟨db, .ok ((db.filter (fun r => r.user_id == u && r.link == l)).map rowToLinks)⟩ := by
  obtain ⟨urlOpt, ok, serr⟩ := env
  simp only at hurl hopen hstmt
  simp [get_all_links_from_user, hurl, hopen, hstmt, add_to_vec_from_database_eq]

theorem get_none_eq (env : Env) (u : Nat) (db : DB) (url : String)
    (hurl : env.database_url = some url) (hopen : env.open_ok = true)
    (hstmt : env.stmt_err 0 = none) :
    get_all_links_from_user env u none db =
      ⟨db, .ok ((db.filter (fun r => r.user_id == u)).map rowToLinks)⟩ := by
  obtain ⟨urlOpt, ok, serr⟩ := env
  simp only at hurl hopen hstmt
  simp [get_all_links_from_user, hurl, hopen, hstmt, add_to_vec_from_database_eq]

theorem clear_all_links_eq (env : Env) (u : Nat) (db : DB) (url : String)
    (hurl : env.database_url = some url) (hopen : env.open_ok = true)
    (hstmt : env.stmt_err 0 = none) :
    clear_all_links env u db =
      ⟨db.filter (fun r => !(r.user_id == u)), .ok State.Done⟩ := by
  obtain ⟨urlOpt, ok, serr⟩ := env
  simp only at hurl hopen hstmt
  simp [clear_all_links, hurl, hopen, hstmt]

theorem delete_loop_ok (env : Env) (u : Nat) (ls : List String) :
    ∀ k db, (∀ j, env.stmt_err j = none) →
      delete_some_links_loop env u ls k db =
        ⟨db.filter (fun r => !(r.user_id == u && ls.contains r.link)), .ok ()⟩ := by
  induction ls with
  | nil =>
    intro k db _
    simp [delete_some_links_loop]
  | cons l ls ih =>
    intro k db hok
    rw [delete_some_links_loop, hok k]
    show delete_some_links_loop env u ls (k + 1)
        (db.filter (fun r => !(r.user_id == u && r.link == l))) =
      ⟨db.filter (fun r => !(r.user_id == u && (l :: ls).contains r.link)), .ok ()⟩
    rw [ih (k + 1) _ hok, List.filter_filter]
    congr 1
    apply List.filter_congr
    intro r _
    simp only [List.contains_cons]
    cases hu : r.user_id == u <;> cases hl : r.link == l <;>
      cases hc : ls.contains r.link <;> simp [hu, hl, hc]

theorem delete_loop_err (env : Env) (u : Nat) (msg : String) :
    ∀ ls : List String, ∀ i k : Nat, ∀ db : DB, i < ls.length →
      (∀ j, j < i → env.stmt_err (k + j) = none) →
      env.stmt_err (k + i) = some msg →
      delete_some_links_loop env u ls k db =
        ⟨deleteFold u (ls.take i) db, .panicked msg⟩ := by
  intro ls
  induction ls with
  | nil =>
    intro i k db hi
    exact absurd hi (by simp)
  | cons l ls ih =>
    intro i k db hi hpre herr
    cases i with
    | zero =>
      have hk : env.stmt_err k = some msg := by simpa using herr
      simp [delete_some_links_loop, hk, deleteFold]
    | succ j =>
      have h0 : env.stmt_err k = none := by simpa using hpre 0 (Nat.succ_pos j)
      rw [delete_some_links_loop, h0]
      rw [ih j (k + 1) _ (by simpa using hi)
        (fun m hm => by
          have := hpre (m + 1) (Nat.succ_lt_succ hm)
          rwa [show k + (m + 1) = k + 1 + m by omega] at this)
        (by rwa [show k + 1 + j = k + (j + 1) by omega])]
      simp [deleteFold]

/-! ### Claims -/

/-- C1: for every `user_id` `u` and link text `l`, if `add_link(u, l)`
completes successfully (returns a `State` instead of panicking), then an
immediately following `is_link_exists(u, l)` on the resulting store — with no
deletion in between — returns `true` whenever it returns at all. -/
theorem C1_insert_then_exists (env env2 : Env) (u : Nat) (l : String) (db : DB)
    (st : State) (b : Bool)
    (h1 : (add_link env u l db).out = .ok st)
    (h2 : (is_link_exists env2 u l (add_link env u l db).db).out = .ok b) :
    b = true := by
  simp only [add_link_ok_inv env u l db st h1] at h2
  simp only [is_link_exists] at h2
  cases hq : (get_all_links_from_user env2 u (some l)
      (db ++ [{ user_id := u, link := l }])).out with
  | panicked msg => rw [hq] at h2; simp at h2
  | ok vec =>
    rw [hq] at h2
    simp only [PanicOr.ok.injEq] at h2
    have hv := get_some_ok_inv env2 u l _ vec hq
    have hpos : 0 < vec.length := by
      rw [hv]
      simp [List.filter_append]
    rw [← h2]
    simpa using hpos

theorem C1_witness :
    ((add_link envOK 42 "http://x.com" []).out = .ok State.Done) ∧
    ((is_link_exists envOK 42 "http://x.com"
        (add_link envOK 42 "http://x.com" []).db).out = .ok true) ∧
    (true = true) :=
  ⟨by decide, by decide,
    C1_insert_then_exists envOK envOK 42 "http://x.com" [] State.Done true
      (by decide) (by decide)⟩

/-- C2: `is_link_exists(u, l)` returns `true` exactly when
`get_all_links_from_user(u, Some(l))` returns a non-empty vector; it returns
`false` when `u` has no records and when the records of `u` all miss `l`; and it
panics exactly when (and with the same message as) the underlying query. -/
theorem C2_exists_iff_nonempty (env : Env) (u : Nat) (l : String) (db : DB) :
    ((is_link_exists env u l db).out = .ok true ↔
      ∃ v, (get_all_links_from_user env u (some l) db).out = .ok v ∧ v ≠ []) ∧
    (∀ msg, (is_link_exists env u l db).out = .panicked msg ↔
      (get_all_links_from_user env u (some l) db).out = .panicked msg) ∧
    ((∀ r ∈ db, r.user_id ≠ u) →
      ∀ b, (is_link_exists env u l db).out = .ok b → b = false) ∧
    ((∀ r ∈ db, r.user_id = u → r.link ≠ l) →
      ∀ b, (is_link_exists env u l db).out = .ok b → b = false) := by
  refine ⟨?_, ?_, ?_, ?_⟩
  · simp only [is_link_exists]
    cases hq : (get_all_links_from_user env u (some l) db).out with
    | panicked msg => simp
    | ok vec => simp [List.length_pos]
  · intro msg
    simp only [is_link_exists]
    cases hq : (get_all_links_from_user env u (some l) db).out with
    | panicked m => simp
    | ok vec => simp
  · intro hno b hb
    simp only [is_link_exists] at hb
    cases hq : (get_all_links_from_user env u (some l) db).out with
    | panicked m => rw [hq] at hb; simp at hb
    | ok vec =>
      rw [hq] at hb
      simp only [PanicOr.ok.injEq] at hb
      have hv := get_some_ok_inv env u l db vec hq
      have hnil : db.filter (fun r => r.user_id == u && r.link == l) = [] := by
        rw [List.filter_eq_nil_iff]
        intro a ha
        have := hno a ha
        simp [this]
      have hvec : vec = [] := by rw [hv, hnil]; rfl
      rw [hvec] at hb
      simpa using hb.symm
  · intro hmiss b hb
    simp only [is_link_exists] at hb
    cases hq : (get_all_links_from_user env u (some l) db).out with
    | panicked m => rw [hq] at hb; simp at hb
    | ok vec =>
      rw [hq] at hb
      simp only [PanicOr.ok.injEq] at hb
      have hv := get_some_ok_inv env u l db vec hq
      have hnil : db.filter (fun r => r.user_id == u && r.link == l) = [] := by
        rw [List.filter_eq_nil_iff]
        intro a ha
        intro hcontra
        simp only [Bool.and_eq_true, beq_iff_eq] at hcontra
        exact hmiss a ha hcontra.1 hcontra.2
      have hvec : vec = [] := by rw [hv, hnil]; rfl
      rw [hvec] at hb
      simpa using hb.symm

theorem C2_witness :
    ((is_link_exists envOK 7 "a" [⟨7, "a"⟩]).out = .ok true ↔
      ∃ v, (get_all_links_from_user envOK 7 (some "a") [⟨7, "a"⟩]).out = .ok v ∧ v ≠ []) ∧
    (∀ msg, (is_link_exists envOK 7 "a" [⟨7, "a"⟩]).out = .panicked msg ↔
      (get_all_links_from_user envOK 7 (some "a") [⟨7, "a"⟩]).out = .panicked msg) ∧
    ((∀ r ∈ ([⟨7, "a"⟩] : DB), r.user_id ≠ 7) →
      ∀ b, (is_link_exists envOK 7 "a" [⟨7, "a"⟩]).out = .ok b → b = false) ∧
    ((∀ r ∈ ([⟨7, "a"⟩] : DB), r.user_id = 7 → r.link ≠ "a") →
      ∀ b, (is_link_exists envOK 7 "a" [⟨7, "a"⟩]).out = .ok b → b = false) :=
  C2_exists_iff_nonempty envOK 7 "a" [⟨7, "a"⟩]

/-- C3: from a store holding no `(u, l)` record, two successful `add_link(u, l)`
calls make a following successful `get_all_links_from_user(u, Some(l))` return
exactly two records. -/
theorem C3_duplicate_insert (env1 env2 env3 : Env) (u : Nat) (l : String)
    (db : DB) (st1 st2 : State) (v : List Links)
    (hfresh : ∀ r ∈ db, ¬(r.user_id = u ∧ r.link = l))
    (h1 : (add_link env1 u l db).out = .ok st1)
    (h2 : (add_link env2 u l (add_link env1 u l db).db).out = .ok st2)
    (h3 : (get_all_links_from_user env3 u (some l)
      (add_link env2 u l (add_link env1 u l db).db).db).out = .ok v) :
    v.length = 2 := by
  simp only [add_link_ok_inv env1 u l db st1 h1] at h2 h3
  simp only [add_link_ok_inv env2 u l _ st2 h2] at h3
  have hv := get_some_ok_inv env3 u l _ v h3
  have hnil : db.filter (fun r => r.user_id == u && r.link == l) = [] := by
    rw [List.filter_eq_nil_iff]
    intro a ha
    have := hfresh a ha
    simp only [Bool.and_eq_true, beq_iff_eq]
    exact fun hc => this ⟨hc.1, hc.2⟩
  rw [hv]
  simp [List.filter_append, hnil]

theorem C3_witness :
    (∀ r ∈ ([⟨7, "y"⟩] : DB), ¬(r.user_id = 42 ∧ r.link = "x")) ∧
    ((add_link envOK 42 "x" [⟨7, "y"⟩]).out = .ok State.Done) ∧
    ((add_link envOK 42 "x" (add_link envOK 42 "x" [⟨7, "y"⟩]).db).out
        = .ok State.Done) ∧
    ((get_all_links_from_user envOK 42 (some "x")
        (add_link envOK 42 "x" (add_link envOK 42 "x" [⟨7, "y"⟩]).db).db).out
        = .ok [⟨42, "x"⟩, ⟨42, "x"⟩]) ∧
    ([(⟨42, "x"⟩ : Links), ⟨42, "x"⟩].length = 2) :=
  ⟨by decide, by decide, by decide, by decide,
    C3_duplicate_insert envOK envOK envOK 42 "x" [⟨7, "y"⟩] State.Done State.Done
      [⟨42, "x"⟩, ⟨42, "x"⟩] (by decide) (by decide) (by decide) (by decide)⟩

/-- C4: every record returned by `get_all_links_from_user(u1, None)` arises
from a stored row owned by `u1`, and every record returned by
`get_all_links_from_user(u1, Some(l))` arises from a stored row owned by `u1`
whose link text is exactly string-equal to `l`. -/
theorem C4_query_scoping (env env2 : Env) (u1 : Nat) (l : String) (db : DB)
    (vAll vL : List Links)
    (hAll : (get_all_links_from_user env u1 none db).out = .ok vAll)
    (hL : (get_all_links_from_user env2 u1 (some l) db).out = .ok vL) :
    (∀ x ∈ vAll, ∃ r ∈ db, r.user_id = u1 ∧ x = rowToLinks r) ∧
    (∀ x ∈ vL, ∃ r ∈ db, r.user_id = u1 ∧ r.link = l ∧ x = rowToLinks r) := by
  constructor
  · have hv := get_none_ok_inv env u1 db vAll hAll
    intro x hx
    rw [hv] at hx
    rcases List.mem_map.mp hx with ⟨r, hr, rfl⟩
    rcases List.mem_filter.mp hr with ⟨hrdb, hcond⟩
    exact ⟨r, hrdb, by simpa using hcond, rfl⟩
  · have hv := get_some_ok_inv env2 u1 l db vL hL
    intro x hx
    rw [hv] at hx
    rcases List.mem_map.mp hx with ⟨r, hr, rfl⟩
    rcases List.mem_filter.mp hr with ⟨hrdb, hcond⟩
    simp only [Bool.and_eq_true, beq_iff_eq] at hcond
    exact ⟨r, hrdb, hcond.1, hcond.2, rfl⟩

theorem C4_witness :
    ((get_all_links_from_user envOK 1 none [⟨1, "a"⟩, ⟨2, "b"⟩, ⟨1, "c"⟩]).out
        = .ok [⟨1, "a"⟩, ⟨1, "c"⟩]) ∧
    ((get_all_links_from_user envOK 1 (some "a") [⟨1, "a"⟩, ⟨2, "b"⟩, ⟨1, "c"⟩]).out
        = .ok [⟨1, "a"⟩]) ∧
    (∀ x ∈ ([⟨1, "a"⟩, ⟨1, "c"⟩] : List Links),
      ∃ r ∈ ([⟨1, "a"⟩, ⟨2, "b"⟩, ⟨1, "c"⟩] : DB), r.user_id = 1 ∧ x = rowToLinks r) ∧
    (∀ x ∈ ([⟨1, "a"⟩] : List Links),
      ∃ r ∈ ([⟨1, "a"⟩, ⟨2, "b"⟩, ⟨1, "c"⟩] : DB),
        r.user_id = 1 ∧ r.link = "a" ∧ x = rowToLinks r) := by
  refine ⟨by decide, by decide, ?_⟩
  exact C4_query_scoping envOK envOK 1 "a" [⟨1, "a"⟩, ⟨2, "b"⟩, ⟨1, "c"⟩]
    [⟨1, "a"⟩, ⟨1, "c"⟩] [⟨1, "a"⟩] (by decide) (by decide)

/-- C5: a fully successful `delete_some_links(u, ls)` leaves exactly the rows
not matching `(u, l)` for any `l ∈ ls` — every row of another user, and every
row of `u` with a link outside `ls`, survives, and every removed row matched —
and with an empty input list the store is unchanged under any environment. -/
theorem C5_delete_subset (env : Env) (u : Nat) (ls : List String) (db : DB)
    (url : String)
    (hurl : env.database_url = some url) (hopen : env.open_ok = true)
    (hok : ∀ j, env.stmt_err j = none) :
    delete_some_links env u ls db =
      ⟨db.filter (fun r => !(r.user_id == u && ls.contains r.link)), .ok ()⟩ ∧
    (∀ r ∈ db, r.user_id ≠ u → r ∈ (delete_some_links env u ls db).db) ∧
    (∀ r ∈ db, ¬ r.link ∈ ls → r ∈ (delete_some_links env u ls db).db) ∧
    (∀ r ∈ (delete_some_links env u ls db).db, r ∈ db) ∧
    (∀ r ∈ (delete_some_links env u ls db).db, ¬(r.user_id = u ∧ r.link ∈ ls)) ∧
    (∀ env2 : Env, (delete_some_links env2 u ([] : List String) db).db = db) := by
  have hmain : delete_some_links env u ls db =
      ⟨db.filter (fun r => !(r.user_id == u && ls.contains r.link)), .ok ()⟩ := by
    obtain ⟨urlOpt, ok, serr⟩ := env
    simp only at hurl hopen hok
    subst hurl
    subst hopen
    exact delete_loop_ok ⟨some url, true, serr⟩ u ls 0 db hok
  refine ⟨hmain, ?_, ?_, ?_, ?_, ?_⟩
  · intro r hr hru
    rw [hmain]
    refine List.mem_filter.mpr ⟨hr, ?_⟩
    simp [hru]
  · intro r hr hrl
    rw [hmain]
    refine List.mem_filter.mpr ⟨hr, ?_⟩
    simp [hrl]
  · intro r hr
    rw [hmain] at hr
    exact (List.mem_filter.mp hr).1
  · intro r hr
    rw [hmain] at hr
    have hb := (List.mem_filter.mp hr).2
    intro hc
    rw [hc.1] at hb
    simp [hc.2] at hb
  · intro env2
    obtain ⟨urlOpt2, ok2, serr2⟩ := env2
    cases urlOpt2 <;> cases ok2 <;>
      simp [delete_some_links, delete_some_links_loop]

theorem C5_witness :
    ((⟨some "database.db", true, fun _ => none⟩ : Env).database_url
        = some "database.db") ∧
    ((⟨some "database.db", true, fun _ => none⟩ : Env).open_ok = true) ∧
    (∀ j, (⟨some "database.db", true, fun _ => none⟩ : Env).stmt_err j = none) ∧
    (delete_some_links envOK 1 ["a", "c"] [⟨1, "a"⟩, ⟨1, "b"⟩, ⟨1, "c"⟩, ⟨2, "a"⟩]
      = ⟨[⟨1, "b"⟩, ⟨2, "a"⟩], .ok ()⟩) := by
  refine ⟨rfl, rfl, fun j => rfl, ?_⟩
  have h := (C5_delete_subset envOK 1 ["a", "c"] [⟨1, "a"⟩, ⟨1, "b"⟩, ⟨1, "c"⟩, ⟨2, "a"⟩]
    "database.db" rfl rfl (fun j => rfl)).1
  rw [h]
  decide

/-- C6: a successful `clear_all_links(u)` removes every row of user `u` and
only rows of user `u`; on a store already holding no rows of `u` it succeeds
and changes nothing, the follow-up unfiltered query for `u` returns the empty
vector, and clearing twice equals clearing once. -/
theorem C6_clear_all (env : Env) (u : Nat) (db : DB) (url : String)
    (hurl : env.database_url = some url) (hopen : env.open_ok = true)
    (hstmt : env.stmt_err 0 = none) :
    clear_all_links env u db =
      ⟨db.filter (fun r => !(r.user_id == u)), .ok State.Done⟩ ∧
    (∀ r ∈ (clear_all_links env u db).db, r.user_id ≠ u) ∧
    (∀ r ∈ db, r.user_id ≠ u → r ∈ (clear_all_links env u db).db) ∧
    ((∀ r ∈ db, r.user_id ≠ u) →
      (clear_all_links env u db).db = db ∧
        (clear_all_links env u db).out = .ok State.Done) ∧
    ((get_all_links_from_user env u none (clear_all_links env u db).db).out
      = .ok []) ∧
    (clear_all_links env u (clear_all_links env u db).db
      = clear_all_links env u db) := by
  have hmain := clear_all_links_eq env u db url hurl hopen hstmt
  refine ⟨hmain, ?_, ?_, ?_, ?_, ?_⟩
  · intro r hr
    rw [hmain] at hr
    have := (List.mem_filter.mp hr).2
    simpa using this
  · intro r hr hru
    rw [hmain]
    refine List.mem_filter.mpr ⟨hr, ?_⟩
    simp [hru]
  · intro hno
    rw [hmain]
    refine ⟨?_, rfl⟩
    refine List.filter_eq_self.mpr ?_
    intro a ha
    simp [hno a ha]
  · rw [hmain]
    rw [get_none_eq env u _ url hurl hopen hstmt]
    have hnil : (db.filter (fun r => !(r.user_id == u))).filter
        (fun r => r.user_id == u) = [] := by
      rw [List.filter_filter]
      refine List.filter_eq_nil_iff.mpr ?_
      intro a ha
      cases h : a.user_id == u <;> simp [h]
    simp [hnil]
  · rw [hmain, clear_all_links_eq env u _ url hurl hopen hstmt]
    congr 1
    rw [List.filter_filter]
    apply List.filter_congr
    intro a ha
    cases h : a.user_id == u <;> simp [h]

theorem C6_witness :
    (envOK.database_url = some "database.db") ∧
    (envOK.open_ok = true) ∧
    (envOK.stmt_err 0 = none) ∧
    (clear_all_links envOK 1 [⟨1, "a"⟩, ⟨2, "b"⟩, ⟨1, "c"⟩]
      = ⟨[⟨2, "b"⟩], .ok State.Done⟩) := by
  refine ⟨rfl, rfl, rfl, ?_⟩
  have h := (C6_clear_all envOK 1 [⟨1, "a"⟩, ⟨2, "b"⟩, ⟨1, "c"⟩]
    "database.db" rfl rfl rfl).1
  rw [h]
  decide

/-- An environment whose backend rejects the second statement of a call
(index 1) and accepts every other one. -/
def envFailAt1 : Env :=
  { database_url := some "database.db", open_ok := true
    stmt_err := fun k => if k = 1 then some "disk I/O error" else none }

/-- C7: `delete_some_links` issues one independent statement per item: when
the backend rejects the statement of item `i` (all earlier ones succeeding), the
call panics with that backend message, the deletions of the items before `i`
remain applied to the store, the deletions from item `i` onward are not
applied, and the outcome is observably not the completed one — the caller at
minimum learns the batch did not complete. -/
theorem C7_per_item_failure (env : Env) (u : Nat) (ls : List String) (db : DB)
    (url : String) (i : Nat) (msg : String)
    (hurl : env.database_url = some url) (hopen : env.open_ok = true)
    (hi : i < ls.length)
    (hpre : ∀ j, j < i → env.stmt_err j = none)
    (herr : env.stmt_err i = some msg) :
    delete_some_links env u ls db =
      ⟨deleteFold u (ls.take i) db, .panicked msg⟩ ∧
    (delete_some_links env u ls db).out ≠ .ok () := by
  have hmain : delete_some_links env u ls db =
      ⟨deleteFold u (ls.take i) db, .panicked msg⟩ := by
    obtain ⟨urlOpt, ok, serr⟩ := env
    simp only at hurl hopen hpre herr
    subst hurl
    subst hopen
    exact delete_loop_err ⟨some url, true, serr⟩ u msg ls i 0 db hi
      (fun j hj => by simpa using hpre j hj) (by simpa using herr)
  exact ⟨hmain, by rw [hmain]; simp⟩

theorem C7_witness :
    (envFailAt1.database_url = some "database.db") ∧
    (envFailAt1.open_ok = true) ∧
    (1 < (["a", "b", "c"] : List String).length) ∧
    (∀ j, j < 1 → envFailAt1.stmt_err j = none) ∧
    (envFailAt1.stmt_err 1 = some "disk I/O error") ∧
    (delete_some_links envFailAt1 1 ["a", "b", "c"]
        [⟨1, "a"⟩, ⟨1, "b"⟩, ⟨1, "c"⟩]
      = ⟨[⟨1, "b"⟩, ⟨1, "c"⟩], .panicked "disk I/O error"⟩) := by
  refine ⟨rfl, rfl, by decide, ?_, rfl, ?_⟩
  · intro j hj
    have hj0 : j = 0 := by omega
    subst hj0
    rfl
  · have h := (C7_per_item_failure envFailAt1 1 ["a", "b", "c"]
      [⟨1, "a"⟩, ⟨1, "b"⟩, ⟨1, "c"⟩] "database.db" 1 "disk I/O error"
      rfl rfl (by decide)
      (fun j hj => by
        have hj0 : j = 0 := by omega
        subst hj0
        rfl)
      rfl).1
    rw [h]
    decide

/-- C8 fails as stated: with the configured location missing, `add_link` does
not surface a `BackendUnavailable` error result to its caller — it panics
("DATABASE_URL is not set"), aborting; no value of the declared return
type is produced. -/
theorem C8_counterexample :
    (add_link ⟨none, true, fun _ => none⟩ 1 "x" ([] : DB)).out
      = .panicked "DATABASE_URL is not set" ∧
    ¬ ∃ st : State, (add_link ⟨none, true, fun _ => none⟩ 1 "x" ([] : DB)).out
      = .ok st := by
  refine ⟨by decide, ?_⟩
  rintro ⟨st, hst⟩
  simp [add_link] at hst

/-- C8 amended: every failure of every operation is a panic propagated to the
caller, never an error-result value and never retried or suppressed: a
missing `DATABASE_URL` panics with "DATABASE_URL is not set", a failed
connection panics with "Failed to connect to the database", and a statement
the backend rejects panics with the message of the backend. -/
theorem C8_amended_failures_panic (env : Env) (u : Nat) (l : String)
    (ls : List String) (db : DB) (url msg : String) :
    (env.database_url = none →
      ((add_link env u l db).out = .panicked "DATABASE_URL is not set" ∧
       (get_all_links_from_user env u (some l) db).out
          = .panicked "DATABASE_URL is not set" ∧
       (get_all_links_from_user env u none db).out
          = .panicked "DATABASE_URL is not set" ∧
       (get_all_links env db).out = .panicked "DATABASE_URL is not set" ∧
       (is_link_exists env u l db).out = .panicked "DATABASE_URL is not set" ∧
       (clear_all_links env u db).out = .panicked "DATABASE_URL is not set" ∧
       (delete_some_links env u ls db).out
          = .panicked "DATABASE_URL is not set")) ∧
    (env.database_url = some url → env.open_ok = false →
      ((add_link env u l db).out = .panicked "Failed to connect to the database" ∧
       (get_all_links_from_user env u (some l) db).out
          = .panicked "Failed to connect to the database" ∧
       (get_all_links_from_user env u none db).out
          = .panicked "Failed to connect to the database" ∧
       (get_all_links env db).out = .panicked "Failed to connect to the database" ∧
       (is_link_exists env u l db).out
          = .panicked "Failed to connect to the database" ∧
       (clear_all_links env u db).out
          = .panicked "Failed to connect to the database" ∧
       (delete_some_links env u ls db).out
          = .panicked "Failed to connect to the database")) ∧
    (env.database_url = some url → env.open_ok = true →
      env.stmt_err 0 = some msg →
      ((add_link env u l db).out = .panicked msg ∧
       (get_all_links_from_user env u (some l) db).out = .panicked msg ∧
       (get_all_links_from_user env u none db).out = .panicked msg ∧
       (get_all_links env db).out = .panicked msg ∧
       (is_link_exists env u l db).out = .panicked msg ∧
       (clear_all_links env u db).out = .panicked msg ∧
       (ls ≠ [] → (delete_some_links env u ls db).out = .panicked msg))) := by
  refine ⟨?_, ?_, ?_⟩
  · intro h0
    obtain ⟨urlOpt, ok, serr⟩ := env
    simp only at h0
    subst h0
    exact ⟨rfl, rfl, rfl, rfl, rfl, rfl, rfl⟩
  · intro hsome hopen
    obtain ⟨urlOpt, ok, serr⟩ := env
    simp only at hsome hopen
    subst hsome
    subst hopen
    exact ⟨rfl, rfl, rfl, rfl, rfl, rfl, rfl⟩
  · intro hsome hopen hstmt
    obtain ⟨urlOpt, ok, serr⟩ := env
    simp only at hsome hopen hstmt
    subst hsome
    subst hopen
    refine ⟨?_, ?_, ?_, ?_, ?_, ?_, ?_⟩
    · simp [add_link, hstmt]
    · simp [get_all_links_from_user, hstmt]
    · simp [get_all_links_from_user, hstmt]
    · simp [get_all_links, hstmt]
    · simp [is_link_exists, get_all_links_from_user, hstmt]
    · simp [clear_all_links, hstmt]
    · intro hls
      cases ls with
      | nil => exact absurd rfl hls
      | cons a as => simp [delete_some_links, delete_some_links_loop, hstmt]

theorem C8_witness :
    ((⟨none, true, fun _ => none⟩ : Env).database_url = none) ∧
    ((add_link ⟨none, true, fun _ => none⟩ 1 "x" ([] : DB)).out
      = .panicked "DATABASE_URL is not set") :=
  ⟨rfl,
    ((C8_amended_failures_panic ⟨none, true, fun _ => none⟩ 1 "x" [] []
      "u" "m").1 rfl).1⟩

/-- C9 fails on the code: the read-back goes through `f64`
(`db.read::<f64>(0)`), which cannot represent every `u64`.  Inserting
`user_id = 2 ^ 53 + 1` succeeds, but querying it back yields a record whose
`user_id` holds `2 ^ 53` — not numerically equal to the inserted value. -/
theorem C9_readback_precision_loss :
    (add_link envOK (2 ^ 53 + 1) "x" []).out = .ok State.Done ∧
    (get_all_links_from_user envOK (2 ^ 53 + 1) none
        ((add_link envOK (2 ^ 53 + 1) "x" []).db)).out
      = .ok [{ user_id := 2 ^ 53, link := "x" }] ∧
    (2 ^ 53 : Nat) ≠ 2 ^ 53 + 1 :=
  ⟨by decide, by decide, by decide⟩

/-- C10: every statement the store issues binds `user_id` first and as the
decimal string of the `u64` (`user_id.to_string()`) — identically in insert,
filtered and unfiltered query, clear, and every per-item delete — and a
record inserted for `u` is accordingly found by the existence check for `u`,
removed by clear for `u`, and removed by per-item delete for `u`. -/
theorem C10_uniform_user_id_binding (u : Nat) (l : String) (ls : List String) :
    ((add_link_stmt u l).binds.head? = some (1, toString u)) ∧
    ((get_all_links_from_user_stmt u (some l)).binds.head? = some (1, toString u)) ∧
    ((get_all_links_from_user_stmt u none).binds.head? = some (1, toString u)) ∧
    ((clear_all_links_stmt u).binds.head? = some (1, toString u)) ∧
    (∀ s ∈ delete_some_links_stmts u ls, s.binds.head? = some (1, toString u)) ∧
    ((is_link_exists envOK u l (add_link envOK u l []).db).out = .ok true) ∧
    ((clear_all_links envOK u (add_link envOK u l []).db).db = []) ∧
    ((delete_some_links envOK u [l] (add_link envOK u l []).db).db = []) := by
  refine ⟨rfl, rfl, rfl, rfl, ?_, ?_, ?_, ?_⟩
  · intro s hs
    rcases List.mem_map.mp hs with ⟨a, _, rfl⟩
    rfl
  · rw [add_link_eq envOK u l [] "database.db" rfl rfl rfl]
    simp [is_link_exists, get_some_eq envOK u l _ "database.db" rfl rfl rfl]
  · rw [add_link_eq envOK u l [] "database.db" rfl rfl rfl]
    rw [clear_all_links_eq envOK u _ "database.db" rfl rfl rfl]
    simp
  · rw [add_link_eq envOK u l [] "database.db" rfl rfl rfl]
    have h := delete_loop_ok envOK u [l] 0
      ([] ++ [{ user_id := u, link := l }]) (fun j => rfl)
    show (delete_some_links_loop envOK u [l] 0
      ([] ++ [{ user_id := u, link := l }])).db = []
    rw [h]
    simp

theorem C10_witness :
    ((add_link_stmt 5 "a").binds.head? = some (1, toString 5)) ∧
    ((get_all_links_from_user_stmt 5 (some "a")).binds.head?
        = some (1, toString 5)) ∧
    ((get_all_links_from_user_stmt 5 none).binds.head? = some (1, toString 5)) ∧
    ((clear_all_links_stmt 5).binds.head? = some (1, toString 5)) ∧
    (∀ s ∈ delete_some_links_stmts 5 ["b", "c"],
        s.binds.head? = some (1, toString 5)) ∧
    ((is_link_exists envOK 5 "a" (add_link envOK 5 "a" []).db).out = .ok true) ∧
    ((clear_all_links envOK 5 (add_link envOK 5 "a" []).db).db = []) ∧
    ((delete_some_links envOK 5 ["a"] (add_link envOK 5 "a" []).db).db = []) :=
  C10_uniform_user_id_binding 5 "a" ["b", "c"]

end Database
